import Mathlib

/-!
Verification of the netrelay CONNECT-tunnel engine.

This file shallowly embeds the protocol-level code of the repository:
the server handshakes (`h1Handler.ServeHTTP` in the connecttunnel package,
`h2Handler.ServeHTTP` in the connect package, and the unified dispatcher
`unifiedHandler.ServeHTTP`), the client dialers (`h1Dialer.DialContext`,
`h2Dialer.DialContext`), the bidirectional copy loops, and the connection
adapters' close logic.

Effectful calls (the authorization callback, the upstream dial, hijacking,
socket writes and flushes, the HTTP round trip) are modelled by an explicit
environment record that supplies the result each call would return, and every
handler/dialer returns a result record that includes, besides the value the Go
function returns, a trace of which effects were performed (which status was
written, whether the dial function was invoked, which resources were closed).
Each Lean definition mirrors its Go source function branch by branch.
-/

/-- Abstract Go `error` value: a non-nil error carrying a message. -/
structure Err where
  msg : String
deriving DecidableEq, Repr

/-- The `io.EOF` sentinel error of the Go standard library. -/
def ioEOF : Err := ⟨"EOF"⟩

/-- The `io.ErrShortWrite` sentinel error of the Go standard library. -/
def ioErrShortWrite : Err := ⟨"short write"⟩

/-- The error built by `fmt.Errorf("invalid write result")` in the copy loops. -/
def errInvalidWrite : Err := ⟨"invalid write result"⟩

/-- The fields of an incoming `*http.Request` that the handlers inspect:
method, `RequestURI` (the HTTP/1.1 CONNECT target), `Host` (the HTTP/2
`:authority`), and the protocol major version. -/
structure Request where
  method : String
  requestURI : String
  host : String
  protoMajor : Nat
deriving DecidableEq, Repr

/-- The dial function resolved by `ServerConfig.getDialFunc`: either the
configured custom function (identified by a tag) or a fresh default
`net.Dialer`'s DialContext. -/
inductive ResolvedDial where
  | defaultDialer
  | custom (tag : Nat)
deriving DecidableEq, Repr

/-- Server configuration (`ServerConfig` in the source): an optional
`OnTunnel` authorization callback, an optional custom `Dial` function
(identified by a tag), and an optional error logger. -/
structure ServerConfig where
  onTunnel : Option (Request → Option Err) := none
  dial : Option Nat := none
  errorLog : Option Nat := none

/-- Embeds `ServerConfig.checkTunnel`: call the `OnTunnel` callback if
configured, otherwise accept (return nil). -/
def ServerConfig.checkTunnel (c : ServerConfig) (req : Request) : Option Err :=
  match c.onTunnel with
  | some f => f req
  | none => none

/-- Embeds `ServerConfig.getDialFunc`: the configured `Dial` if non-nil,
otherwise a default `net.Dialer`'s DialContext. -/
def ServerConfig.getDialFunc (c : ServerConfig) : ResolvedDial :=
  match c.dial with
  | some tag => .custom tag
  | none => .defaultDialer

/-- Environment for one run of the HTTP/1.1 server handshake: the outcome of
each effectful call it may perform, in program order. A `none` error means
that call succeeds. -/
structure H1ServerEnv where
  dialErr : Option Err := none
  hijackSupported : Bool := true
  hijackErr : Option Err := none
  writeErr : Option Err := none
  flushErr : Option Err := none
deriving DecidableEq, Repr

/-- Observable outcome of one run of `h1Handler.ServeHTTP`: the HTTP status
written via `http.Error` (none when the handshake succeeded and the raw 200
line was written instead), plus a trace of the effects performed. -/
structure H1Result where
  status : Option Nat := none
  checkTunnelCalled : Bool := false
  onTunnelInvoked : Bool := false
  dialCalled : Bool := false
  hijackCalled : Bool := false
  wrote : Option String := none
  flushCalled : Bool := false
  clientClosed : Bool := false
  upstreamClosed : Bool := false
  tunnelStarted : Bool := false
deriving DecidableEq, Repr

/-- The literal success response written to the hijacked connection by
`h1Handler.ServeHTTP`: the status line followed by an empty line. -/
def connEstablished : String := "HTTP/1.1 200 Connection Established\r\n\r\n"

/-- Embeds `h1Handler.ServeHTTP` (connecttunnel package): method check (405),
target check (400), authorization (403), upstream dial (502), hijack
(500 on failure, closing upstream), then the raw 200 line plus flush
(closing both sockets on failure), and finally the tunnel goroutine. -/
def h1Handler.ServeHTTP (cfg : ServerConfig) (env : H1ServerEnv) (req : Request) : H1Result :=
  if req.method ≠ "CONNECT" then
    { status := some 405 }
  else if req.requestURI = "" ∨ req.requestURI = "/" then
    { status := some 400 }
  else
    match cfg.checkTunnel req with
    | some _ =>
      { status := some 403, checkTunnelCalled := true, onTunnelInvoked := cfg.onTunnel.isSome }
    | none =>
      match env.dialErr with
      | some _ =>
        { status := some 502, checkTunnelCalled := true,
          onTunnelInvoked := cfg.onTunnel.isSome, dialCalled := true }
      | none =>
        if ¬ env.hijackSupported then
          { status := some 500, checkTunnelCalled := true,
            onTunnelInvoked := cfg.onTunnel.isSome, dialCalled := true,
            upstreamClosed := true }
        else
          match env.hijackErr with
          | some _ =>
            { status := some 500, checkTunnelCalled := true,
              onTunnelInvoked := cfg.onTunnel.isSome, dialCalled := true,
              hijackCalled := true, upstreamClosed := true }
          | none =>
            match env.writeErr with
            | some _ =>
              { checkTunnelCalled := true, onTunnelInvoked := cfg.onTunnel.isSome,
                dialCalled := true, hijackCalled := true,
                wrote := some connEstablished,
                clientClosed := true, upstreamClosed := true }
            | none =>
              match env.flushErr with
              | some _ =>
                { checkTunnelCalled := true, onTunnelInvoked := cfg.onTunnel.isSome,
                  dialCalled := true, hijackCalled := true,
                  wrote := some connEstablished, flushCalled := true,
                  clientClosed := true, upstreamClosed := true }
              | none =>
                { checkTunnelCalled := true, onTunnelInvoked := cfg.onTunnel.isSome,
                  dialCalled := true, hijackCalled := true,
                  wrote := some connEstablished, flushCalled := true,
                  tunnelStarted := true }

/-- Environment for one run of the HTTP/2 server handshake. -/
structure H2ServerEnv where
  dialErr : Option Err := none
  fullDuplexErr : Option Err := none
  flushErr : Option Err := none
deriving DecidableEq, Repr

/-- Observable outcome of one run of `h2Handler.ServeHTTP`. -/
structure H2Result where
  status : Option Nat := none
  checkTunnelCalled : Bool := false
  onTunnelInvoked : Bool := false
  dialCalled : Bool := false
  upstreamClosed : Bool := false
  fullDuplexEnabled : Bool := false
  headerFlushed : Bool := false
  tunnelRun : Bool := false
deriving DecidableEq, Repr

/-- Embeds `h2Handler.ServeHTTP` (connect package): protocol check (505),
method check (405), target from `req.Host` (400 when empty), authorization
(403), upstream dial (502), `EnableFullDuplex` (500 on failure, closing
upstream), `WriteHeader(200)` plus flush (closing upstream on flush failure),
then the bidirectional copy. -/
def h2Handler.ServeHTTP (cfg : ServerConfig) (env : H2ServerEnv) (req : Request) : H2Result :=
  if req.protoMajor ≠ 2 then
    { status := some 505 }
  else if req.method ≠ "CONNECT" then
    { status := some 405 }
  else if req.host = "" then
    { status := some 400 }
  else
    match cfg.checkTunnel req with
    | some _ =>
      { status := some 403, checkTunnelCalled := true, onTunnelInvoked := cfg.onTunnel.isSome }
    | none =>
      match env.dialErr with
      | some _ =>
        { status := some 502, checkTunnelCalled := true,
          onTunnelInvoked := cfg.onTunnel.isSome, dialCalled := true }
      | none =>
        match env.fullDuplexErr with
        | some _ =>
          { status := some 500, checkTunnelCalled := true,
            onTunnelInvoked := cfg.onTunnel.isSome, dialCalled := true,
            upstreamClosed := true }
        | none =>
          match env.flushErr with
          | some _ =>
            { status := some 200, checkTunnelCalled := true,
              onTunnelInvoked := cfg.onTunnel.isSome, dialCalled := true,
              fullDuplexEnabled := true, upstreamClosed := true }
          | none =>
            { status := some 200, checkTunnelCalled := true,
              onTunnelInvoked := cfg.onTunnel.isSome, dialCalled := true,
              fullDuplexEnabled := true, headerFlushed := true,
              tunnelRun := true }

/-- Which protocol-specific handler the unified dispatcher delegated to. -/
inductive UnifiedRoute where
  | h1
  | h2
deriving DecidableEq, Repr

/-- Observable outcome of one run of `unifiedHandler.ServeHTTP`: either an
early 405 (no protocol inspection, no delegation), or a delegation to one of
the protocol-specific handlers together with that handler's result. -/
structure UnifiedResult where
  status : Option Nat := none
  protoInspected : Bool := false
  routedTo : Option UnifiedRoute := none
  h1Res : Option H1Result := none
  h2Res : Option H2Result := none
deriving DecidableEq, Repr

/-- Whether the authorization callback was invoked anywhere in a unified run. -/
def UnifiedResult.onTunnelInvoked (r : UnifiedResult) : Bool :=
  (r.h1Res.map (·.onTunnelInvoked)).getD false || (r.h2Res.map (·.onTunnelInvoked)).getD false

/-- Whether the upstream dial function was invoked anywhere in a unified run. -/
def UnifiedResult.dialCalled (r : UnifiedResult) : Bool :=
  (r.h1Res.map (·.dialCalled)).getD false || (r.h2Res.map (·.dialCalled)).getD false

/-- Embeds `unifiedHandler.ServeHTTP` (connect package): reject non-CONNECT
methods with 405 first, then inspect `req.ProtoMajor` and delegate to the
HTTP/2 handler when it is 2, otherwise to the HTTP/1.1 handler. -/
def unifiedHandler.ServeHTTP (cfg : ServerConfig) (env1 : H1ServerEnv) (env2 : H2ServerEnv)
    (req : Request) : UnifiedResult :=
  if req.method ≠ "CONNECT" then
    { status := some 405 }
  else if req.protoMajor = 2 then
    { status := (h2Handler.ServeHTTP cfg env2 req).status,
      protoInspected := true, routedTo := some .h2,
      h2Res := some (h2Handler.ServeHTTP cfg env2 req) }
  else
    { status := (h1Handler.ServeHTTP cfg env1 req).status,
      protoInspected := true, routedTo := some .h1,
      h1Res := some (h1Handler.ServeHTTP cfg env1 req) }

/-- Embeds the nil-configuration normalization shared by `NewHandler`,
`NewH1Handler` and `NewH2Handler`: a nil `*ServerConfig` is replaced by a
fresh zero-value `&ServerConfig\x7b\x7d`. -/
def normalizeServerConfig : Option ServerConfig → ServerConfig
  | some c => c
  | none => {}

/-- Embeds `NewHandler`: the configuration actually stored in the unified
handler (after nil normalization) that every request is served with. -/
def NewHandler (cfg : Option ServerConfig) : ServerConfig :=
  normalizeServerConfig cfg

/-- Embeds Go's `strings.HasPrefix` used by both client dialers to validate
the `network` argument. -/
def goHasPrefix (s p : String) : Bool :=
  p.data.isPrefixOf s.data

/-- Errors a client `DialContext` can return: the unsupported-network error,
a wrapped `ErrProxyConnect`, or a `ProxyError` carrying the proxy's non-200
status code and status line. -/
inductive ClientErr where
  | unsupportedNetwork (network : String)
  | proxyConnect (msg : String)
  | proxyError (statusCode : Nat) (status : String)
deriving DecidableEq, Repr

/-- The `(net.Conn, error)` pair returned by a client `DialContext`: either a
tunnel connection was returned, or a non-nil error and no connection. -/
inductive DialReturn where
  | conn
  | err (e : ClientErr)
deriving DecidableEq, Repr

/-- Environment for one run of `h1Dialer.DialContext`: outcomes of dialing the
proxy, writing the CONNECT request, reading the response, and the parsed
response status. -/
structure H1ClientEnv where
  dialErr : Option Err := none
  writeErr : Option Err := none
  readErr : Option Err := none
  respStatusCode : Nat := 200
  respStatus : String := "200 OK"
deriving DecidableEq, Repr

/-- Observable outcome of one run of `h1Dialer.DialContext`: the returned
value (a tunnel connection or an error) plus a trace of the effects. -/
structure H1DialResult where
  result : DialReturn
  proxyDialCalled : Bool := false
  connClosed : Bool := false
  respBodyClosed : Bool := false
deriving DecidableEq, Repr

/-- Embeds `h1Dialer.DialContext` (connecttunnel package): reject networks
without the "tcp" prefix, dial the proxy, write the CONNECT request, read and
parse the response (always closing the response body), return a `ProxyError`
and close the socket on a non-200 status, otherwise return the buffered
tunnel connection. -/
def h1Dialer.DialContext (env : H1ClientEnv) (network address : String) : H1DialResult :=
  if ¬ goHasPrefix network "tcp" then
    { result := .err (.unsupportedNetwork network) }
  else
    match env.dialErr with
    | some e =>
      { result := .err (.proxyConnect e.msg), proxyDialCalled := true }
    | none =>
      match env.writeErr with
      | some e =>
        { result := .err (.proxyConnect e.msg), proxyDialCalled := true, connClosed := true }
      | none =>
        match env.readErr with
        | some e =>
          { result := .err (.proxyConnect e.msg), proxyDialCalled := true, connClosed := true }
        | none =>
          if env.respStatusCode ≠ 200 then
            { result := .err (.proxyError env.respStatusCode env.respStatus),
              proxyDialCalled := true, respBodyClosed := true, connClosed := true }
          else
            { result := .conn, proxyDialCalled := true, respBodyClosed := true }

/-- The remote-address value (`remoteAddr` in both the connecttunnel and
connect packages) attached to HTTP/2-backed tunnel endpoints. -/
structure remoteAddr where
  addr : String
deriving DecidableEq, Repr

/-- Embeds `remoteAddr.Network`, identical in both packages. -/
def remoteAddr.Network (_ : remoteAddr) : String :=
  "connecttunnel"

/-- Embeds the `String()` method of `remoteAddr`, which reports the stored
address. -/
def remoteAddr.addrString (a : remoteAddr) : String :=
  a.addr

/-- Environment for one run of `h2Dialer.DialContext`: whether a
`HeadersForRequest` function is configured and its outcome, the outcome of
the HTTP/2 round trip, and the response status. -/
structure H2ClientEnv where
  headerFuncPresent : Bool := false
  headerErr : Option Err := none
  roundTripErr : Option Err := none
  respStatusCode : Nat := 200
  respStatus : String := "200 OK"
deriving DecidableEq, Repr

/-- The header-function error actually observed by `h2Dialer.DialContext`:
`d.headerFunc` is only called when it is non-nil. -/
def H2ClientEnv.effectiveHeaderErr (env : H2ClientEnv) : Option Err :=
  if env.headerFuncPresent then env.headerErr else none

/-- Observable outcome of one run of `h2Dialer.DialContext`. On success,
`connRemoteAddr` is the remote-address value wrapped into the returned
connection. -/
structure H2DialResult where
  result : DialReturn
  pipeCreated : Bool := false
  roundTripCalled : Bool := false
  prClosed : Bool := false
  pwClosed : Bool := false
  respBodyClosed : Bool := false
  connRemoteAddr : Option remoteAddr := none
deriving DecidableEq, Repr

/-- Embeds `h2Dialer.DialContext` (connect package; `NewH2CDialer` returns the
same `h2Dialer` type, so the h2c dialer runs this same method): reject
networks without the "tcp" prefix, create the pipe, apply the optional header
function (closing both pipe ends on failure), perform the round trip (closing
both pipe ends on failure), on a non-200 status close the response body and
both pipe ends and return a `ProxyError`, otherwise wrap the pipe writer and
response body into a connection whose remote address is the requested target. -/
def h2Dialer.DialContext (env : H2ClientEnv) (network address : String) : H2DialResult :=
  if ¬ goHasPrefix network "tcp" then
    { result := .err (.unsupportedNetwork network) }
  else
    match env.effectiveHeaderErr with
    | some e =>
      { result := .err (.proxyConnect e.msg), pipeCreated := true,
        prClosed := true, pwClosed := true }
    | none =>
      match env.roundTripErr with
      | some e =>
        { result := .err (.proxyConnect e.msg), pipeCreated := true,
          roundTripCalled := true, prClosed := true, pwClosed := true }
      | none =>
        if env.respStatusCode ≠ 200 then
          { result := .err (.proxyError env.respStatusCode env.respStatus),
            pipeCreated := true, roundTripCalled := true,
            respBodyClosed := true, prClosed := true, pwClosed := true }
        else
          { result := .conn, pipeCreated := true, roundTripCalled := true,
            connRemoteAddr := some ⟨address⟩ }

/-- One iteration's I/O outcomes in a copy loop: bytes read and read error
from the source, then bytes written and write error from the destination for
that chunk. `nw` is an `Int` because the loop explicitly guards against a
negative write count. -/
structure CopyEvent where
  nr : Nat
  er : Option Err := none
  nw : Int
  ew : Option Err := none
deriving DecidableEq, Repr

/-- Terminal outcome of the upstream-to-response copy goroutine in
`h2Handler.tunnel`: the error value it sends on `errCh` (possibly `io.EOF`),
or still running because the supplied event list was exhausted. -/
inductive CopyOutcome where
  | sent (e : Err)
  | running
deriving DecidableEq, Repr

/-- Buffer size allocated by the upstream-to-response copy goroutine in
`h2Handler.tunnel` (`make([]byte, 32*1024)`). -/
def h2CopyBufSize : Nat := 32 * 1024

/-- Embeds the upstream-to-response copy goroutine of `h2Handler.tunnel`,
driven by a finite list of per-iteration I/O outcomes. Each iteration: read;
if bytes were read, write them (normalizing a negative or too-large write
count to zero with an "invalid write result" error), stop with the write
error if any, stop with `io.ErrShortWrite` if fewer bytes were written than
read, then stop with the read error if any; otherwise iterate. -/
def h2Handler.tunnelCopyLoop : List CopyEvent → CopyOutcome
  | [] => .running
  | e :: rest =>
    if 0 < e.nr then
      let invalid := e.nw < 0 ∨ (e.nr : Int) < e.nw
      let nw : Int := if invalid then 0 else e.nw
      let ew : Option Err := if invalid ∧ e.ew = none then some errInvalidWrite else e.ew
      match ew with
      | some w => .sent w
      | none =>
        if (e.nr : Int) ≠ nw then .sent ioErrShortWrite
        else
          match e.er with
          | some r => .sent r
          | none => h2Handler.tunnelCopyLoop rest
    else
      match e.er with
      | some r => .sent r
      | none => h2Handler.tunnelCopyLoop rest

/-- Terminal outcome of `io.Copy`: the error it returns (`none` after a clean
end-of-stream, since `io.EOF` is normalized to nil), or still running. -/
inductive IoCopyOutcome where
  | done (res : Option Err)
  | running
deriving DecidableEq, Repr

/-- Buffer size of the generic path of `io.Copy` in the Go standard library
(`size := 32 * 1024` in `io.copyBuffer`), used by the client-to-upstream copy
goroutines of `h1Handler.tunnel` and `h2Handler.tunnel`. -/
def ioCopyBufSize : Nat := 32 * 1024

/-- Embeds the generic loop of `io.copyBuffer` from the Go standard library
(the code run by the `io.Copy` calls in both tunnel routines): identical
chunk handling to `h2Handler.tunnelCopyLoop`, except that a terminal
`io.EOF` read error is normalized to a nil returned error. -/
def ioCopyLoop : List CopyEvent → IoCopyOutcome
  | [] => .running
  | e :: rest =>
    if 0 < e.nr then
      let invalid := e.nw < 0 ∨ (e.nr : Int) < e.nw
      let nw : Int := if invalid then 0 else e.nw
      let ew : Option Err := if invalid ∧ e.ew = none then some errInvalidWrite else e.ew
      match ew with
      | some w => .done (some w)
      | none =>
        if (e.nr : Int) ≠ nw then .done (some ioErrShortWrite)
        else
          match e.er with
          | some r => .done (if r = ioEOF then none else some r)
          | none => ioCopyLoop rest
    else
      match e.er with
      | some r => .done (if r = ioEOF then none else some r)
      | none => ioCopyLoop rest

/-- Observable outcome of a connection adapter's `Close`: which underlying
close calls were made and the error the adapter returns. -/
structure CloseResult where
  firstCloseCalled : Bool
  secondCloseCalled : Bool
  ret : Option Err
deriving DecidableEq, Repr

/-- Embeds `h2Conn.Close` (connect package): close the response-body reader,
then close the pipe writer, and return the reader's error if non-nil,
otherwise the writer's. `err1` and `err2` are the errors those two close
calls return. -/
def h2Conn.Close (err1 err2 : Option Err) : CloseResult :=
  { firstCloseCalled := true, secondCloseCalled := true,
    ret := match err1 with
           | some e => some e
           | none => err2 }

/-- Embeds `tunnelConn.Close` (connecttunnel package): close the wrapped
connection; if an additional closer is present, close it too, and return the
closer's error only when the connection's close succeeded. `hasCloser` is
whether `c.closer` is non-nil; `err1`/`err2` are the two close errors. -/
def tunnelConn.Close (hasCloser : Bool) (err1 err2 : Option Err) : CloseResult :=
  if hasCloser then
    { firstCloseCalled := true, secondCloseCalled := true,
      ret := match err1 with
             | some e => some e
             | none => err2 }
  else
    { firstCloseCalled := true, secondCloseCalled := false, ret := err1 }

/-- C1: for every CONNECT request to either server handshake (HTTP/1.1 or
HTTP/2) for which the configured authorization callback returns a non-nil
error, the server responds with status 403 and the upstream dial function is
never invoked for that request. -/
theorem c1_auth_reject_403_no_dial
    (cfg : ServerConfig) (f : Request → Option Err) (e1 e2 : Err)
    (env1 : H1ServerEnv) (env2 : H2ServerEnv) (req1 req2 : Request)
    (hcfg : cfg.onTunnel = some f)
    (h1m : req1.method = "CONNECT")
    (h1t : ¬ (req1.requestURI = "" ∨ req1.requestURI = "/"))
    (hf1 : f req1 = some e1)
    (h2p : req2.protoMajor = 2)
    (h2m : req2.method = "CONNECT")
    (h2h : req2.host ≠ "")
    (hf2 : f req2 = some e2) :
    (h1Handler.ServeHTTP cfg env1 req1).status = some 403 ∧
    (h1Handler.ServeHTTP cfg env1 req1).dialCalled = false ∧
    (h2Handler.ServeHTTP cfg env2 req2).status = some 403 ∧
    (h2Handler.ServeHTTP cfg env2 req2).dialCalled = false := by
  have hc1 : cfg.checkTunnel req1 = some e1 := by
    simp [ServerConfig.checkTunnel, hcfg, hf1]
  have hc2 : cfg.checkTunnel req2 = some e2 := by
    simp [ServerConfig.checkTunnel, hcfg, hf2]
  simp [h1Handler.ServeHTTP, h2Handler.ServeHTTP, h1m, h1t, h2p, h2m, h2h, hc1, hc2]

/-- Witness for C1 at a concrete rejecting configuration and request pair. -/
theorem c1_auth_reject_403_no_dial_witness :
    (h1Handler.ServeHTTP { onTunnel := some fun _ => some ⟨"denied"⟩ } {}
        ⟨"CONNECT", "example.com:443", "example.com:443", 1⟩).status = some 403 ∧
    (h1Handler.ServeHTTP { onTunnel := some fun _ => some ⟨"denied"⟩ } {}
        ⟨"CONNECT", "example.com:443", "example.com:443", 1⟩).dialCalled = false ∧
    (h2Handler.ServeHTTP { onTunnel := some fun _ => some ⟨"denied"⟩ } {}
        ⟨"CONNECT", "", "example.com:443", 2⟩).status = some 403 ∧
    (h2Handler.ServeHTTP { onTunnel := some fun _ => some ⟨"denied"⟩ } {}
        ⟨"CONNECT", "", "example.com:443", 2⟩).dialCalled = false :=
  c1_auth_reject_403_no_dial { onTunnel := some fun _ => some ⟨"denied"⟩ }
    (fun _ => some ⟨"denied"⟩) ⟨"denied"⟩ ⟨"denied"⟩ {} {}
    ⟨"CONNECT", "example.com:443", "example.com:443", 1⟩
    ⟨"CONNECT", "", "example.com:443", 2⟩
    rfl rfl (by decide) rfl rfl rfl (by decide) rfl

/-- C3: for every request to the unified server handler whose method is not
CONNECT, the response status is 405, neither the authorization callback nor
the upstream dial function is invoked, and the rejection happens before any
protocol-version inspection. -/
theorem c3_non_connect_405_before_proto
    (cfg : ServerConfig) (env1 : H1ServerEnv) (env2 : H2ServerEnv) (req : Request)
    (h : req.method ≠ "CONNECT") :
    (unifiedHandler.ServeHTTP cfg env1 env2 req).status = some 405 ∧
    (unifiedHandler.ServeHTTP cfg env1 env2 req).onTunnelInvoked = false ∧
    (unifiedHandler.ServeHTTP cfg env1 env2 req).dialCalled = false ∧
    (unifiedHandler.ServeHTTP cfg env1 env2 req).protoInspected = false := by
  simp [unifiedHandler.ServeHTTP, h, UnifiedResult.onTunnelInvoked, UnifiedResult.dialCalled]

/-- Witness for C3 at a concrete GET request. -/
theorem c3_non_connect_405_before_proto_witness :
    (unifiedHandler.ServeHTTP {} {} {} ⟨"GET", "/", "example.com", 2⟩).status = some 405 ∧
    (unifiedHandler.ServeHTTP {} {} {} ⟨"GET", "/", "example.com", 2⟩).onTunnelInvoked = false ∧
    (unifiedHandler.ServeHTTP {} {} {} ⟨"GET", "/", "example.com", 2⟩).dialCalled = false ∧
    (unifiedHandler.ServeHTTP {} {} {} ⟨"GET", "/", "example.com", 2⟩).protoInspected = false :=
  c3_non_connect_405_before_proto {} {} {} ⟨"GET", "/", "example.com", 2⟩ (by decide)

/-- C8 counterexample: a CONNECT request with protocol major version 3 (which
is not 1) is routed to the HTTP/1.1 handler, not the HTTP/2 handler as the
claim states. -/
theorem c8_counterexample :
    (unifiedHandler.ServeHTTP {} {} {} ⟨"CONNECT", "t:1", "t:1", 3⟩).routedTo = some .h1 ∧
    (unifiedHandler.ServeHTTP {} {} {} ⟨"CONNECT", "t:1", "t:1", 3⟩).routedTo ≠ some .h2 ∧
    (3 : Nat) ≠ 1 := by
  decide

/-- C8 (amended): for every CONNECT request, the unified dispatch routes the
request to the HTTP/2 handshake if the protocol major version is 2, and to
the HTTP/1.1 handshake for every other protocol major version. -/
theorem c8_dispatch_by_proto_major
    (cfg : ServerConfig) (env1 : H1ServerEnv) (env2 : H2ServerEnv) (req : Request)
    (hm : req.method = "CONNECT") :
    (req.protoMajor = 2 →
      (unifiedHandler.ServeHTTP cfg env1 env2 req).routedTo = some .h2) ∧
    (req.protoMajor ≠ 2 →
      (unifiedHandler.ServeHTTP cfg env1 env2 req).routedTo = some .h1) := by
  constructor
  · intro h2
    simp [unifiedHandler.ServeHTTP, hm, h2]
  · intro h2
    simp [unifiedHandler.ServeHTTP, hm, h2]

/-- Witness for the amended C8 at a concrete HTTP/2 CONNECT request. -/
theorem c8_dispatch_by_proto_major_witness :
    ((⟨"CONNECT", "t:1", "t:1", 2⟩ : Request).protoMajor = 2 →
      (unifiedHandler.ServeHTTP {} {} {} ⟨"CONNECT", "t:1", "t:1", 2⟩).routedTo = some .h2) ∧
    ((⟨"CONNECT", "t:1", "t:1", 2⟩ : Request).protoMajor ≠ 2 →
      (unifiedHandler.ServeHTTP {} {} {} ⟨"CONNECT", "t:1", "t:1", 2⟩).routedTo = some .h1) :=
  c8_dispatch_by_proto_major {} {} {} ⟨"CONNECT", "t:1", "t:1", 2⟩ rfl

/-- C2: for every client DialContext call (HTTP/1.1 or HTTP/2 dialer) in
which the proxy's response status is not 200, the call returns a ProxyError
carrying the observed status code and status line, every underlying resource
opened for that attempt is closed (the proxy socket in the HTTP/1.1 path; the
pipe ends and the response body in the HTTP/2 path), and no tunnel connection
is returned. -/
theorem c2_non200_proxy_error_resources_closed
    (env1 : H1ClientEnv) (env2 : H2ClientEnv)
    (network1 address1 network2 address2 : String)
    (hn1 : goHasPrefix network1 "tcp" = true)
    (hd : env1.dialErr = none) (hw : env1.writeErr = none) (hr : env1.readErr = none)
    (hs1 : env1.respStatusCode ≠ 200)
    (hn2 : goHasPrefix network2 "tcp" = true)
    (hh : env2.effectiveHeaderErr = none) (hrt : env2.roundTripErr = none)
    (hs2 : env2.respStatusCode ≠ 200) :
    (h1Dialer.DialContext env1 network1 address1).result
        = .err (.proxyError env1.respStatusCode env1.respStatus) ∧
    (h1Dialer.DialContext env1 network1 address1).connClosed = true ∧
    (h2Dialer.DialContext env2 network2 address2).result
        = .err (.proxyError env2.respStatusCode env2.respStatus) ∧
    (h2Dialer.DialContext env2 network2 address2).pwClosed = true ∧
    (h2Dialer.DialContext env2 network2 address2).prClosed = true ∧
    (h2Dialer.DialContext env2 network2 address2).respBodyClosed = true ∧
    (h2Dialer.DialContext env2 network2 address2).connRemoteAddr = none := by
  simp [h1Dialer.DialContext, h2Dialer.DialContext, hn1, hd, hw, hr, hs1, hn2, hh, hrt, hs2]

/-- Witness for C2 at a concrete 403 proxy response. -/
theorem c2_non200_proxy_error_resources_closed_witness :
    (h1Dialer.DialContext { respStatusCode := 403, respStatus := "403 Forbidden" }
        "tcp" "example.com:80").result = .err (.proxyError 403 "403 Forbidden") ∧
    (h1Dialer.DialContext { respStatusCode := 403, respStatus := "403 Forbidden" }
        "tcp" "example.com:80").connClosed = true ∧
    (h2Dialer.DialContext { respStatusCode := 403, respStatus := "403 Forbidden" }
        "tcp" "example.com:80").result = .err (.proxyError 403 "403 Forbidden") ∧
    (h2Dialer.DialContext { respStatusCode := 403, respStatus := "403 Forbidden" }
        "tcp" "example.com:80").pwClosed = true ∧
    (h2Dialer.DialContext { respStatusCode := 403, respStatus := "403 Forbidden" }
        "tcp" "example.com:80").prClosed = true ∧
    (h2Dialer.DialContext { respStatusCode := 403, respStatus := "403 Forbidden" }
        "tcp" "example.com:80").respBodyClosed = true ∧
    (h2Dialer.DialContext { respStatusCode := 403, respStatus := "403 Forbidden" }
        "tcp" "example.com:80").connRemoteAddr = none :=
  c2_non200_proxy_error_resources_closed
    { respStatusCode := 403, respStatus := "403 Forbidden" }
    { respStatusCode := 403, respStatus := "403 Forbidden" }
    "tcp" "example.com:80" "tcp" "example.com:80"
    (by decide) rfl rfl rfl (by decide) (by decide) rfl rfl (by decide)

/-- C7 counterexample: the network string "tcpx" is not one of "tcp", "tcp4",
"tcp6", yet both dialers accept it (under an otherwise benign environment the
HTTP/1.1 dialer dials the proxy and even returns a tunnel connection, and the
HTTP/2 dialer performs the round trip). -/
theorem c7_counterexample :
    (h1Dialer.DialContext {} "tcpx" "example.com:80").proxyDialCalled = true ∧
    (h1Dialer.DialContext {} "tcpx" "example.com:80").result = .conn ∧
    (h2Dialer.DialContext {} "tcpx" "example.com:80").roundTripCalled = true ∧
    (h2Dialer.DialContext {} "tcpx" "example.com:80").result = .conn ∧
    "tcpx" ≠ "tcp" ∧ "tcpx" ≠ "tcp4" ∧ "tcpx" ≠ "tcp6" := by
  decide

/-- C7 (amended): for every network string that does not have "tcp" as a
prefix, DialContext of every client dialer (HTTP/1.1, HTTP/2, h2c — the h2c
dialer shares `h2Dialer.DialContext`) returns the unsupported-network error
without attempting to contact the proxy; strings with the "tcp" prefix
(including but not limited to "tcp", "tcp4", "tcp6") are accepted. -/
theorem c7_non_tcp_prefix_rejected
    (env1 : H1ClientEnv) (env2 : H2ClientEnv) (network address : String)
    (h : goHasPrefix network "tcp" = false) :
    (h1Dialer.DialContext env1 network address).result
        = .err (.unsupportedNetwork network) ∧
    (h1Dialer.DialContext env1 network address).proxyDialCalled = false ∧
    (h2Dialer.DialContext env2 network address).result
        = .err (.unsupportedNetwork network) ∧
    (h2Dialer.DialContext env2 network address).roundTripCalled = false ∧
    (h2Dialer.DialContext env2 network address).pipeCreated = false := by
  simp [h1Dialer.DialContext, h2Dialer.DialContext, h]

/-- Witness for the amended C7 at the concrete network string "udp". -/
theorem c7_non_tcp_prefix_rejected_witness :
    (h1Dialer.DialContext {} "udp" "example.com:80").result
        = .err (.unsupportedNetwork "udp") ∧
    (h1Dialer.DialContext {} "udp" "example.com:80").proxyDialCalled = false ∧
    (h2Dialer.DialContext {} "udp" "example.com:80").result
        = .err (.unsupportedNetwork "udp") ∧
    (h2Dialer.DialContext {} "udp" "example.com:80").roundTripCalled = false ∧
    (h2Dialer.DialContext {} "udp" "example.com:80").pipeCreated = false :=
  c7_non_tcp_prefix_rejected {} {} "udp" "example.com:80" (by decide)

/-- C4: in the HTTP/1.1 server handshake, after a successful hijack the
server writes exactly the literal status line "HTTP/1.1 200 Connection
Established" followed by an empty line and then flushes; if the write or the
flush fails, both the hijacked client socket and the upstream socket are
closed and no tunneling is started. -/
theorem c4_hijack_success_line_and_abort
    (cfg : ServerConfig) (env : H1ServerEnv) (req : Request)
    (hm : req.method = "CONNECT")
    (ht : ¬ (req.requestURI = "" ∨ req.requestURI = "/"))
    (ha : cfg.checkTunnel req = none)
    (hd : env.dialErr = none)
    (hhs : env.hijackSupported = true)
    (hhe : env.hijackErr = none) :
    (h1Handler.ServeHTTP cfg env req).wrote = some connEstablished ∧
    connEstablished = "HTTP/1.1 200 Connection Established" ++ "\r\n" ++ "\r\n" ∧
    (env.writeErr = none → (h1Handler.ServeHTTP cfg env req).flushCalled = true) ∧
    (env.writeErr ≠ none ∨ env.flushErr ≠ none →
      (h1Handler.ServeHTTP cfg env req).clientClosed = true ∧
      (h1Handler.ServeHTTP cfg env req).upstreamClosed = true ∧
      (h1Handler.ServeHTTP cfg env req).tunnelStarted = false) ∧
    (env.writeErr = none ∧ env.flushErr = none →
      (h1Handler.ServeHTTP cfg env req).tunnelStarted = true) := by
  rcases hwe : env.writeErr with _ | w <;> rcases hfe : env.flushErr with _ | fl <;>
    simp [h1Handler.ServeHTTP, hm, ht, ha, hd, hhs, hhe, hwe, hfe] <;> decide

/-- Witness for C4 at a concrete successful handshake. -/
theorem c4_hijack_success_line_and_abort_witness :
    (h1Handler.ServeHTTP {} {} ⟨"CONNECT", "example.com:443", "example.com:443", 1⟩).wrote
        = some connEstablished ∧
    connEstablished = "HTTP/1.1 200 Connection Established" ++ "\r\n" ++ "\r\n" ∧
    ((H1ServerEnv.mk none true none none none).writeErr = none →
      (h1Handler.ServeHTTP {} {} ⟨"CONNECT", "example.com:443", "example.com:443", 1⟩).flushCalled
        = true) ∧
    ((H1ServerEnv.mk none true none none none).writeErr ≠ none ∨
        (H1ServerEnv.mk none true none none none).flushErr ≠ none →
      (h1Handler.ServeHTTP {} {} ⟨"CONNECT", "example.com:443", "example.com:443", 1⟩).clientClosed
        = true ∧
      (h1Handler.ServeHTTP {} {} ⟨"CONNECT", "example.com:443", "example.com:443", 1⟩).upstreamClosed
        = true ∧
      (h1Handler.ServeHTTP {} {} ⟨"CONNECT", "example.com:443", "example.com:443", 1⟩).tunnelStarted
        = false) ∧
    ((H1ServerEnv.mk none true none none none).writeErr = none ∧
        (H1ServerEnv.mk none true none none none).flushErr = none →
      (h1Handler.ServeHTTP {} {} ⟨"CONNECT", "example.com:443", "example.com:443", 1⟩).tunnelStarted
        = true) :=
  c4_hijack_success_line_and_abort {} {} ⟨"CONNECT", "example.com:443", "example.com:443", 1⟩
    rfl (by decide) rfl rfl rfl rfl

/-- C5: in each copy task of the bidirectional copy engine, chunks are read
into a buffer of at least 32 KiB, and if a write transfers fewer bytes than
were read without the write itself reporting an error, that direction
terminates with a short-write error rather than continuing (for the explicit
upstream-to-response loop of `h2Handler.tunnel` and for the generic
`io.Copy` loop used by the opposite direction). -/
theorem c5_short_write_terminates
    (e : CopyEvent) (rest : List CopyEvent)
    (hnw : 0 ≤ e.nw) (hlt : e.nw < (e.nr : Int)) (hew : e.ew = none) :
    32 * 1024 ≤ h2CopyBufSize ∧ 32 * 1024 ≤ ioCopyBufSize ∧
    h2Handler.tunnelCopyLoop (e :: rest) = .sent ioErrShortWrite ∧
    ioCopyLoop (e :: rest) = .done (some ioErrShortWrite) := by
  have hnrpos : 0 < e.nr := by exact_mod_cast lt_of_le_of_lt hnw hlt
  have hninv : ¬ (e.nw < 0 ∨ (e.nr : Int) < e.nw) := by omega
  have hne : (e.nr : Int) ≠ e.nw := ne_of_gt hlt
  refine ⟨le_refl _, le_refl _, ?_, ?_⟩ <;>
    simp [h2Handler.tunnelCopyLoop, ioCopyLoop, hnrpos, hninv, hew, hne]

/-- Witness for C5 at a concrete event that reads 2 bytes but writes 1. -/
theorem c5_short_write_terminates_witness :
    32 * 1024 ≤ h2CopyBufSize ∧ 32 * 1024 ≤ ioCopyBufSize ∧
    h2Handler.tunnelCopyLoop (⟨2, none, 1, none⟩ :: []) = .sent ioErrShortWrite ∧
    ioCopyLoop (⟨2, none, 1, none⟩ :: []) = .done (some ioErrShortWrite) :=
  c5_short_write_terminates ⟨2, none, 1, none⟩ [] (by decide) (by decide) rfl

/-- C6: closing a connection adapter whose reader and writer are distinct
objects always attempts to close both of them, even when the first close
fails, and the returned error is the first error encountered (nil only when
both closes succeed) — shown for `h2Conn.Close` and for `tunnelConn.Close`
with an additional closer present. -/
theorem c6_close_attempts_both_returns_first_error
    (err1 err2 : Option Err) :
    (h2Conn.Close err1 err2).firstCloseCalled = true ∧
    (h2Conn.Close err1 err2).secondCloseCalled = true ∧
    (h2Conn.Close err1 err2).ret = (if err1.isSome then err1 else err2) ∧
    ((h2Conn.Close err1 err2).ret = none ↔ err1 = none ∧ err2 = none) ∧
    (tunnelConn.Close true err1 err2).firstCloseCalled = true ∧
    (tunnelConn.Close true err1 err2).secondCloseCalled = true ∧
    (tunnelConn.Close true err1 err2).ret = (if err1.isSome then err1 else err2) ∧
    ((tunnelConn.Close true err1 err2).ret = none ↔ err1 = none ∧ err2 = none) := by
  cases err1 <;> cases err2 <;> simp [h2Conn.Close, tunnelConn.Close]

/-- C9 counterexample: the remote-address value of a successfully dialed
HTTP/2 tunnel reports the network name "connecttunnel", not "tunnel" as the
claim states. -/
theorem c9_counterexample :
    (h2Dialer.DialContext {} "tcp" "example.com:443").connRemoteAddr
        = some ⟨"example.com:443"⟩ ∧
    remoteAddr.Network ⟨"example.com:443"⟩ = "connecttunnel" ∧
    remoteAddr.Network ⟨"example.com:443"⟩ ≠ "tunnel" := by
  decide

/-- C9 (amended): for every tunnel endpoint backed by an HTTP/2 stream, the
remote-address value reports the network name "connecttunnel" and the
requested target as its address string. -/
theorem c9_remote_addr_reports_target
    (env : H2ClientEnv) (network address : String)
    (hn : goHasPrefix network "tcp" = true)
    (hh : env.effectiveHeaderErr = none)
    (hrt : env.roundTripErr = none)
    (hs : env.respStatusCode = 200) :
    (h2Dialer.DialContext env network address).connRemoteAddr = some ⟨address⟩ ∧
    remoteAddr.Network ⟨address⟩ = "connecttunnel" ∧
    remoteAddr.addrString ⟨address⟩ = address := by
  simp [h2Dialer.DialContext, remoteAddr.Network, remoteAddr.addrString, hn, hh, hrt, hs]

/-- Witness for the amended C9 at a concrete successful dial. -/
theorem c9_remote_addr_reports_target_witness :
    (h2Dialer.DialContext {} "tcp" "target.example:22").connRemoteAddr
        = some ⟨"target.example:22"⟩ ∧
    remoteAddr.Network ⟨"target.example:22"⟩ = "connecttunnel" ∧
    remoteAddr.addrString ⟨"target.example:22"⟩ = "target.example:22" :=
  c9_remote_addr_reports_target {} "tcp" "target.example:22" (by decide) rfl rfl rfl

/-- C10: when the server configuration is nil or leaves fields unset, the
handlers still operate with defaults: the constructors accept a nil
configuration (normalizing it to the zero configuration), with a nil OnTunnel
callback every tunnel request is authorized so the 403 branch is unreachable,
and with a nil Dial function the default TCP dialer is used. -/
theorem c10_nil_config_defaults
    (env1 : H1ServerEnv) (env2 : H2ServerEnv) (req : Request) :
    NewHandler none = ({} : ServerConfig) ∧
    (NewHandler none).checkTunnel req = none ∧
    (NewHandler none).getDialFunc = .defaultDialer ∧
    (h1Handler.ServeHTTP (NewHandler none) env1 req).status ≠ some 403 ∧
    (h2Handler.ServeHTTP (NewHandler none) env2 req).status ≠ some 403 := by
  refine ⟨rfl, rfl, rfl, ?_, ?_⟩
  · unfold h1Handler.ServeHTTP
    split
    · simp
    · split
      · simp
      · simp only [NewHandler, normalizeServerConfig, ServerConfig.checkTunnel]
        cases env1.dialErr <;> cases env1.hijackSupported <;> cases env1.hijackErr <;>
          cases env1.writeErr <;> cases env1.flushErr <;> simp
  · unfold h2Handler.ServeHTTP
    split
    · simp
    · split
      · simp
      · split
        · simp
        · simp only [NewHandler, normalizeServerConfig, ServerConfig.checkTunnel]
          cases env2.dialErr <;> cases env2.fullDuplexErr <;> cases env2.flushErr <;> simp
